import Mathlib

/-!
Verification of the card-identity fusion, confidence-scoring and price-resolution
core of the trading-cards-automation repository.

The repository's source tree contains the Next.js frontend (notably the
DualSideUploader component), database schemata and project documents.  The
backend services implementing the core (referenced in the documents as
`src/utils/enhanced_card_processor.py`, `src/services/price_service.py` and
`utils/price_finder.py`) are not part of the tree, so the fusion engine,
confidence scorer and price resolver below are modelled from the
specification's own words; the uploader's `processFiles` logic is embedded
directly from the DualSideUploader component source.
-/

namespace Cards

/-- Whitespace trimming, computed on the character list so that it evaluates
by kernel reduction. -/
def trimStr (s : String) : String :=
  ⟨((s.data.dropWhile Char.isWhitespace).reverse.dropWhile
      Char.isWhitespace).reverse⟩

/-- Trimmed non-emptiness test used throughout fusion and scoring:
a field value counts as present when it is non-empty after trimming. -/
def nonEmpty (s : String) : Bool := trimStr s != ""

/-- Modelled from the spec: a per-side candidate set produced by the OCR
provider for one image side (the backend extractor is absent from the tree).
Every identity field is a raw string, empty meaning absent; `features` may
carry several raw values. -/
structure Candidates where
  player : String
  set : String
  year : String
  card_number : String
  parallel : String
  manufacturer : String
  features : List String
  graded : String
  grade : String
  grading_company : String
  cert_number : String
deriving DecidableEq, Repr

/-- The candidate set of a side that extracted nothing. -/
def emptyCandidates : Candidates :=
  ⟨"", "", "", "", "", "", [], "", "", "", ""⟩

/-- One photographed face of a card. -/
inductive Side where
  | front
  | back
deriving DecidableEq, Repr

/-- Modelled from the spec: the fused identity record (matching the
`DualSideCardData` declaration in src/types.d.ts, with `features` kept as a
list of values and the grading fields as raw strings). -/
structure FusedCardRecord where
  player : String
  set : String
  year : String
  card_number : String
  parallel : String
  manufacturer : String
  features : List String
  graded : String
  grade : String
  grading_company : String
  cert_number : String
  dual_side : Bool
  ocr_sources : List Side
deriving DecidableEq, Repr

/-- Modelled from the spec: priority pick for an "overrides" field.  The
authoritative side wins whenever it is non-empty after trimming; otherwise the
other side's (trimmed) value is used; empty on both sides stays empty. -/
def pick (auth other : String) : String :=
  if nonEmpty auth then trimStr auth else trimStr other

/-- Does a candidate set have at least one non-empty field? -/
def hasNonEmptyField (c : Candidates) : Bool :=
  nonEmpty c.player || nonEmpty c.set || nonEmpty c.year ||
  nonEmpty c.card_number || nonEmpty c.parallel || nonEmpty c.manufacturer ||
  c.features.any (fun s => nonEmpty s) || nonEmpty c.graded ||
  nonEmpty c.grade || nonEmpty c.grading_company || nonEmpty c.cert_number

/-- A side contributed at least one non-empty field (propositional form). -/
def contributes (c : Candidates) : Prop :=
  nonEmpty c.player = true ∨ nonEmpty c.set = true ∨ nonEmpty c.year = true ∨
  nonEmpty c.card_number = true ∨ nonEmpty c.parallel = true ∨
  nonEmpty c.manufacturer = true ∨ (∃ x ∈ c.features, nonEmpty x = true) ∨
  nonEmpty c.graded = true ∨ nonEmpty c.grade = true ∨
  nonEmpty c.grading_company = true ∨ nonEmpty c.cert_number = true

/-- Modelled from the spec: the field-fusion engine (the backend
`enhanced_card_processor` is absent from the tree).  Priority table:
year and card_number back-overrides-front; set and parallel
front-overrides-back; player filename-hint-overrides-front-overrides-back;
features union of distinct non-empty values; grading family presence-based
with back authoritative; `ocr_sources` lists the sides holding at least one
non-empty field. -/
def fuseCards (hint : String) (front back : Candidates) (dual : Bool) :
    FusedCardRecord where
  player := pick hint (pick front.player back.player)
  set := pick front.set back.set
  year := pick back.year front.year
  card_number := pick back.card_number front.card_number
  parallel := pick front.parallel back.parallel
  manufacturer := pick front.manufacturer back.manufacturer
  features :=
    (((front.features ++ back.features).map trimStr).filter
      (fun s => s != "")).dedup
  graded := pick back.graded front.graded
  grade := pick back.grade front.grade
  grading_company := pick back.grading_company front.grading_company
  cert_number := pick back.cert_number front.cert_number
  dual_side := dual
  ocr_sources :=
    (if hasNonEmptyField front then [Side.front] else []) ++
    (if hasNonEmptyField back then [Side.back] else [])

/-- Digit-string parsing on the character list, evaluable by kernel
reduction (stands in for the implementation's integer parse of `year`). -/
def parseNat (l : List Char) : Option Nat :=
  if l ≠ [] ∧ l.all Char.isDigit then
    some (l.foldl (fun n c => 10 * n + (c.toNat - 48)) 0)
  else none

/-- Modelled from the spec: the plausible-year test — the trimmed year string
parses as an integer in [1980, 2030]. -/
def yearPlausible (s : String) : Bool :=
  match parseNat (trimStr s).data with
  | some y => decide (1980 ≤ y) && decide (y ≤ 2030)
  | none => false

/-- Modelled from the spec: any of parallel, features, manufacturer or
grading info is present on the fused record. -/
def completenessPresent (r : FusedCardRecord) : Bool :=
  nonEmpty r.parallel || r.features.any (fun s => nonEmpty s) ||
  nonEmpty r.manufacturer || nonEmpty r.graded || nonEmpty r.grade ||
  nonEmpty r.grading_company || nonEmpty r.cert_number

/-- Modelled from the spec: the confidence scorer (the backend scorer is
absent from the tree).  Critical-field weights 0.30 / 0.25 / 0.25 / 0.20, a
single completeness bonus of 0.10, a dual-side bonus of 0.05, a
plausible-year bonus of 0.10, and the final sum clamped to 1. -/
def confidenceScore (r : FusedCardRecord) : ℚ :=
  min 1 ((if nonEmpty r.player then (30 : ℚ) / 100 else 0) +
    (if nonEmpty r.year then (25 : ℚ) / 100 else 0) +
    (if nonEmpty r.card_number then (25 : ℚ) / 100 else 0) +
    (if nonEmpty r.set then (20 : ℚ) / 100 else 0) +
    (if completenessPresent r then (10 : ℚ) / 100 else 0) +
    (if r.dual_side then (5 : ℚ) / 100 else 0) +
    (if yearPlausible r.year then (10 : ℚ) / 100 else 0))

/-- The four critical fields of the scorer. -/
inductive CriticalField where
  | player
  | year
  | cardNumber
  | set
deriving DecidableEq, Repr

/-- Read a critical field off the fused record. -/
def getCritical (r : FusedCardRecord) : CriticalField → String
  | .player => r.player
  | .year => r.year
  | .cardNumber => r.card_number
  | .set => r.set

/-- Populate one critical field of the fused record, leaving everything else
(including the dual_side flag) unchanged. -/
def setCritical (r : FusedCardRecord) (fld : CriticalField) (v : String) :
    FusedCardRecord :=
  match fld with
  | .player => { r with player := v }
  | .year => { r with year := v }
  | .cardNumber => { r with card_number := v }
  | .set => { r with set := v }

/-- Lower-casing computed on the character list (canonical keys are built by
case-folding and trimming). -/
def lowerStr (s : String) : String := ⟨s.data.map Char.toLower⟩

/-- Modelled from the spec: the canonical price key — normalized composite of
player, set, year, card_number and condition/grade. -/
structure PriceKey where
  player : String
  set : String
  year : String
  card_number : String
  condition : String
deriving DecidableEq, Repr

/-- Modelled from the spec: a price observation from some source. -/
structure PriceRecord where
  source : String
  value : ℚ
deriving DecidableEq, Repr

/-- Modelled from the spec: a cache entry — price observation plus the time
it was recorded, for staleness tracking. -/
structure CacheEntry where
  price : PriceRecord
  recorded_at : Nat
deriving DecidableEq, Repr

/-- The pricing cache: an association list from canonical keys to entries. -/
def Cache := List (PriceKey × CacheEntry)

/-- Raw cache lookup by canonical key. -/
def cacheLookup (c : Cache) (k : PriceKey) : Option CacheEntry :=
  (List.find? (fun e => e.1 = k) c).map (fun e => e.2)

/-- Modelled from the spec: lookup honouring the staleness window — an entry
recorded more than `ttl` time units before `now` is treated as absent. -/
def freshLookup (c : Cache) (ttl now : Nat) (k : PriceKey) :
    Option PriceRecord :=
  match cacheLookup c k with
  | some e => if now - e.recorded_at ≤ ttl then some e.price else none
  | none => none

/-- First fuzzy degradation step: drop the condition component. -/
def degrade1 (k : PriceKey) : PriceKey := { k with condition := "" }

/-- Second fuzzy degradation step: drop condition and card_number. -/
def degrade2 (k : PriceKey) : PriceKey :=
  { k with condition := "", card_number := "" }

/-- Resolution methods of the price resolver. -/
inductive Method where
  | exact_match
  | fuzzy_match
  | remote_lookup
  | unresolved
deriving DecidableEq, Repr

/-- A price resolution: an optional price (null when unresolved) plus the
method that produced it. -/
structure Resolution where
  price : Option PriceRecord
  method : Method
deriving DecidableEq, Repr

/-- Outcome of one resolver run: the resolution, the possibly-updated cache
and the number of remote provider calls issued. -/
structure ResolveOutcome where
  res : Resolution
  cache : Cache
  remoteCalls : Nat

/-- Modelled from the spec: the tiered price resolver (the backend
`price_service` / `price_finder` are absent from the tree).  EXACT full-key
fresh hit, then FUZZY lookups on progressively degraded keys, then one REMOTE
call whose success is written back under the original full key with a fresh
timestamp; remote failure or an unconstructable key yields a null result with
method `unresolved`. -/
def resolvePrice (remote : PriceKey → Except String PriceRecord)
    (ttl now : Nat) (cache : Cache) (key : Option PriceKey) : ResolveOutcome :=
  match key with
  | none => ⟨⟨none, Method.unresolved⟩, cache, 0⟩
  | some k =>
    match freshLookup cache ttl now k with
    | some p => ⟨⟨some p, Method.exact_match⟩, cache, 0⟩
    | none =>
      match freshLookup cache ttl now (degrade1 k) with
      | some p => ⟨⟨some p, Method.fuzzy_match⟩, cache, 0⟩
      | none =>
        match freshLookup cache ttl now (degrade2 k) with
        | some p => ⟨⟨some p, Method.fuzzy_match⟩, cache, 0⟩
        | none =>
          match remote k with
          | Except.ok p => ⟨⟨some p, Method.remote_lookup⟩,
              (k, ⟨p, now⟩) :: cache, 1⟩
          | Except.error _ => ⟨⟨none, Method.unresolved⟩, cache, 1⟩

/-- Outcome of one OCR side extraction: candidates, or a provider failure. -/
inductive ExtractResult where
  | ok (c : Candidates)
  | failed
deriving DecidableEq, Repr

/-- Hard failures surfaced by card processing. -/
inductive CardError where
  | cardExtractionFailed
deriving DecidableEq, Repr

/-- The record fusion builds from whatever sides survived extraction: both
sides when both succeeded (dual_side true), otherwise the surviving side
passed through alongside empty candidates (dual_side false). -/
def fuseSurviving (hint : String) : ExtractResult → ExtractResult →
    FusedCardRecord
  | .ok cf, .ok cb => fuseCards hint cf cb true
  | .ok cf, .failed => fuseCards hint cf emptyCandidates false
  | .failed, .ok cb => fuseCards hint emptyCandidates cb false
  | .failed, .failed => fuseCards hint emptyCandidates emptyCandidates false

/-- Modelled from the spec: dual-side extraction handling — both sides failed
is a hard CardExtractionFailed; otherwise fusion proceeds with the surviving
side's candidates. -/
def processDualExtraction (hint : String) (f b : ExtractResult) :
    Except CardError FusedCardRecord :=
  match f, b with
  | .failed, .failed => Except.error CardError.cardExtractionFailed
  | _, _ => Except.ok (fuseSurviving hint f b)

/-- Modelled from the spec: single-side extraction handling — a failed single
side is a hard CardExtractionFailed; otherwise the side passes through with
dual_side false. -/
def processSingleExtraction (hint : String) (f : ExtractResult) :
    Except CardError FusedCardRecord :=
  match f with
  | .failed => Except.error CardError.cardExtractionFailed
  | .ok cf => Except.ok (fuseCards hint cf emptyCandidates false)

/-- Modelled from the spec: canonical key construction from a fused record by
case-folding and trimming; an empty player makes the key unconstructable. -/
def buildKey (r : FusedCardRecord) : Option PriceKey :=
  if nonEmpty r.player then
    some ⟨lowerStr (trimStr r.player), lowerStr (trimStr r.set),
      trimStr r.year, trimStr r.card_number, lowerStr (trimStr r.grade)⟩
  else none

/-- Modelled from the spec: one full card-processing call — extraction
handling, fusion, then price resolution; price failure never invalidates the
identity result. -/
def processCard (remote : PriceKey → Except String PriceRecord)
    (ttl now : Nat) (cache : Cache) (hint : String) (f b : ExtractResult) :
    Except CardError ((FusedCardRecord × Resolution) × Cache) :=
  match processDualExtraction hint f b with
  | Except.error e => Except.error e
  | Except.ok r =>
    let out := resolvePrice remote ttl now cache (buildKey r)
    Except.ok ((r, out.res), out.cache)

end Cards

namespace Cards

/-- An empty-after-trim year string is never a plausible year. -/
theorem yearPlausible_of_not_nonEmpty (s : String) (h : nonEmpty s = false) :
    yearPlausible s = false := by
  have ht : trimStr s = "" := by simpa [nonEmpty] using h
  unfold yearPlausible
  rw [ht]
  decide

/-- C1: the fused record takes `year` and `card_number` from the back side
whenever the back is non-empty there, and `set` and `parallel` from the front
side whenever the front is non-empty there, regardless of the other side; when
only the non-designated side has a value, that value is used. -/
theorem fuse_overrides (hint : String) (f b : Candidates) (d : Bool) :
    (nonEmpty b.year = true → (fuseCards hint f b d).year = trimStr b.year) ∧
    (nonEmpty b.card_number = true →
      (fuseCards hint f b d).card_number = trimStr b.card_number) ∧
    (nonEmpty f.set = true → (fuseCards hint f b d).set = trimStr f.set) ∧
    (nonEmpty f.parallel = true →
      (fuseCards hint f b d).parallel = trimStr f.parallel) ∧
    (nonEmpty b.year = false → (fuseCards hint f b d).year = trimStr f.year) ∧
    (nonEmpty b.card_number = false →
      (fuseCards hint f b d).card_number = trimStr f.card_number) ∧
    (nonEmpty f.set = false → (fuseCards hint f b d).set = trimStr b.set) ∧
    (nonEmpty f.parallel = false →
      (fuseCards hint f b d).parallel = trimStr b.parallel) := by
  refine ⟨?_, ?_, ?_, ?_, ?_, ?_, ?_, ?_⟩ <;>
    intro h <;> simp [fuseCards, pick, h]

/-- Concrete check of `fuse_overrides` on a Scenario-A style input. -/
theorem fuse_overrides_checked :
    (fuseCards "" ⟨"", "S", "", "", "P", "", [], "", "", "", ""⟩
      ⟨"", "T", "2024", "41", "Q", "", [], "", "", "", ""⟩ true).year = "2024" ∧
    (fuseCards "" ⟨"", "S", "", "", "P", "", [], "", "", "", ""⟩
      ⟨"", "T", "2024", "41", "Q", "", [], "", "", "", ""⟩ true).card_number
        = "41" ∧
    (fuseCards "" ⟨"", "S", "", "", "P", "", [], "", "", "", ""⟩
      ⟨"", "T", "2024", "41", "Q", "", [], "", "", "", ""⟩ true).set = "S" ∧
    (fuseCards "" ⟨"", "S", "", "", "P", "", [], "", "", "", ""⟩
      ⟨"", "T", "2024", "41", "Q", "", [], "", "", "", ""⟩ true).parallel
        = "P" := by
  refine ⟨?_, ?_, ?_, ?_⟩
  · exact (fuse_overrides "" ⟨"", "S", "", "", "P", "", [], "", "", "", ""⟩
      ⟨"", "T", "2024", "41", "Q", "", [], "", "", "", ""⟩ true).1 (by decide)
  · exact (fuse_overrides "" ⟨"", "S", "", "", "P", "", [], "", "", "", ""⟩
      ⟨"", "T", "2024", "41", "Q", "", [], "", "", "", ""⟩ true).2.1 (by decide)
  · exact (fuse_overrides "" ⟨"", "S", "", "", "P", "", [], "", "", "", ""⟩
      ⟨"", "T", "2024", "41", "Q", "", [], "", "", "", ""⟩ true).2.2.1
      (by decide)
  · exact (fuse_overrides "" ⟨"", "S", "", "", "P", "", [], "", "", "", ""⟩
      ⟨"", "T", "2024", "41", "Q", "", [], "", "", "", ""⟩ true).2.2.2.1
      (by decide)

/-- C2: for every fused record (hence every dual_side flag value) the
confidence score lies in the closed interval [0, 1]: the weighted sum is
clamped above by 1 and every summand is non-negative. -/
theorem confidence_in_unit_interval (r : FusedCardRecord) :
    0 ≤ confidenceScore r ∧ confidenceScore r ≤ 1 := by
  constructor
  · refine le_min (by norm_num) ?_
    repeat' apply add_nonneg
    all_goals split <;> norm_num
  · exact min_le_left _ _

/-- C3: the confidence scorer is monotone in the critical fields — populating
a previously-empty critical field with a non-empty value never decreases the
score, with the dual_side flag held fixed. -/
theorem confidence_monotone (r : FusedCardRecord) (fld : CriticalField)
    (v : String) (h1 : nonEmpty (getCritical r fld) = false)
    (h2 : nonEmpty v = true) :
    confidenceScore r ≤ confidenceScore (setCritical r fld v) := by
  cases fld
  case player =>
    simp only [getCritical] at h1
    simp only [confidenceScore, setCritical, completenessPresent, h1, h2]
    apply min_le_min le_rfl
    simp only [if_true, if_false, Bool.false_eq_true, Bool.true_eq_false]
    linarith [le_refl (0 : ℚ)]
  case year =>
    simp only [getCritical] at h1
    have hy := yearPlausible_of_not_nonEmpty r.year h1
    have hb : (0 : ℚ) ≤ if yearPlausible v = true then (10 : ℚ) / 100 else 0 := by
      split <;> norm_num
    simp only [confidenceScore, setCritical, completenessPresent, h1, h2, hy]
    apply min_le_min le_rfl
    simp only [if_true, if_false, Bool.false_eq_true, Bool.true_eq_false]
    linarith
  case cardNumber =>
    simp only [getCritical] at h1
    simp only [confidenceScore, setCritical, completenessPresent, h1, h2]
    apply min_le_min le_rfl
    simp only [if_true, if_false, Bool.false_eq_true, Bool.true_eq_false]
    linarith [le_refl (0 : ℚ)]
  case set =>
    simp only [getCritical] at h1
    simp only [confidenceScore, setCritical, completenessPresent, h1, h2]
    apply min_le_min le_rfl
    simp only [if_true, if_false, Bool.false_eq_true, Bool.true_eq_false]
    linarith [le_refl (0 : ℚ)]

/-- Concrete check of `confidence_monotone`: populating the player field of
the all-empty record does not lower the score. -/
theorem confidence_monotone_checked :
    confidenceScore ⟨"", "", "", "", "", "", [], "", "", "", "", false, []⟩ ≤
      confidenceScore (setCritical
        ⟨"", "", "", "", "", "", [], "", "", "", "", false, []⟩
        CriticalField.player "Skenes") :=
  confidence_monotone ⟨"", "", "", "", "", "", [], "", "", "", "", false, []⟩
    CriticalField.player "Skenes" (by decide) (by decide)

/-- C4: a non-stale exact-key cache hit is returned immediately with method
exact_match, an unchanged cache and zero remote provider calls. -/
theorem exact_tier_no_remote (remote : PriceKey → Except String PriceRecord)
    (ttl now : Nat) (cache : Cache) (k : PriceKey) (p : PriceRecord)
    (h : freshLookup cache ttl now k = some p) :
    resolvePrice remote ttl now cache (some k) =
      ⟨⟨some p, Method.exact_match⟩, cache, 0⟩ := by
  simp [resolvePrice, h]

/-- Concrete check of `exact_tier_no_remote` on a one-entry cache. -/
theorem exact_tier_no_remote_checked :
    resolvePrice (fun _ => Except.error "down") 10 7
      [(⟨"a", "b", "2024", "41", "raw"⟩, ⟨⟨"cache", 5⟩, 5⟩)]
      (some ⟨"a", "b", "2024", "41", "raw"⟩) =
      ⟨⟨some ⟨"cache", 5⟩, Method.exact_match⟩,
        [(⟨"a", "b", "2024", "41", "raw"⟩, ⟨⟨"cache", 5⟩, 5⟩)], 0⟩ :=
  exact_tier_no_remote (fun _ => Except.error "down") 10 7
    [(⟨"a", "b", "2024", "41", "raw"⟩, ⟨⟨"cache", 5⟩, 5⟩)]
    ⟨"a", "b", "2024", "41", "raw"⟩ ⟨"cache", 5⟩ (by decide)

/-- C5: on a full local miss with a successful remote call, the result is
returned with method remote_lookup and written back into the cache under the
original full key with timestamp `now`; an immediately subsequent resolution
of the same key hits the EXACT tier with zero further remote calls. -/
theorem remote_roundtrip (remote : PriceKey → Except String PriceRecord)
    (ttl now : Nat) (cache : Cache) (k : PriceKey) (p : PriceRecord)
    (h1 : freshLookup cache ttl now k = none)
    (h2 : freshLookup cache ttl now (degrade1 k) = none)
    (h3 : freshLookup cache ttl now (degrade2 k) = none)
    (h4 : remote k = Except.ok p) :
    resolvePrice remote ttl now cache (some k) =
      ⟨⟨some p, Method.remote_lookup⟩, (k, ⟨p, now⟩) :: cache, 1⟩ ∧
    resolvePrice remote ttl now ((k, ⟨p, now⟩) :: cache) (some k) =
      ⟨⟨some p, Method.exact_match⟩, (k, ⟨p, now⟩) :: cache, 0⟩ := by
  constructor
  · simp [resolvePrice, h1, h2, h3, h4]
  · have hfresh : freshLookup ((k, ⟨p, now⟩) :: cache) ttl now k = some p := by
      simp [freshLookup, cacheLookup, List.find?]
    simp [resolvePrice, hfresh]

/-- Concrete check of `remote_roundtrip` from an empty cache. -/
theorem remote_roundtrip_checked :
    resolvePrice (fun _ => Except.ok ⟨"rm", 3⟩) 10 7 []
      (some ⟨"a", "b", "2024", "41", "raw"⟩) =
      ⟨⟨some ⟨"rm", 3⟩, Method.remote_lookup⟩,
        [(⟨"a", "b", "2024", "41", "raw"⟩, ⟨⟨"rm", 3⟩, 7⟩)], 1⟩ ∧
    resolvePrice (fun _ => Except.ok ⟨"rm", 3⟩) 10 7
      [(⟨"a", "b", "2024", "41", "raw"⟩, ⟨⟨"rm", 3⟩, 7⟩)]
      (some ⟨"a", "b", "2024", "41", "raw"⟩) =
      ⟨⟨some ⟨"rm", 3⟩, Method.exact_match⟩,
        [(⟨"a", "b", "2024", "41", "raw"⟩, ⟨⟨"rm", 3⟩, 7⟩)], 0⟩ :=
  remote_roundtrip (fun _ => Except.ok ⟨"rm", 3⟩) 10 7 []
    ⟨"a", "b", "2024", "41", "raw"⟩ ⟨"rm", 3⟩ rfl rfl rfl rfl

/-- C7: when at least one side extracts successfully and the remote provider
fails on every key, the processing call still returns the complete fused
record, the price result is null with method unresolved (no fabricated
value), and no exception is propagated. -/
theorem price_error_downgraded (remote : PriceKey → Except String PriceRecord)
    (ttl now : Nat) (hint : String) (f b : ExtractResult)
    (hok : (∃ c, f = ExtractResult.ok c) ∨ (∃ c, b = ExtractResult.ok c))
    (herr : ∀ k, ∃ e, remote k = Except.error e) :
    processCard remote ttl now [] hint f b =
      Except.ok ((fuseSurviving hint f b, ⟨none, Method.unresolved⟩), []) := by
  have hext : processDualExtraction hint f b =
      Except.ok (fuseSurviving hint f b) := by
    cases f with
    | ok cf => cases b <;> rfl
    | failed =>
      cases b with
      | ok cb => rfl
      | failed => rcases hok with ⟨c, hc⟩ | ⟨c, hc⟩ <;> exact absurd hc (by simp)
  have hres : (resolvePrice remote ttl now []
        (buildKey (fuseSurviving hint f b))).res = ⟨none, Method.unresolved⟩ ∧
      (resolvePrice remote ttl now []
        (buildKey (fuseSurviving hint f b))).cache = [] := by
    cases hk : buildKey (fuseSurviving hint f b) with
    | none => simp [resolvePrice]
    | some k =>
      obtain ⟨e, he⟩ := herr k
      simp [resolvePrice, he, freshLookup, cacheLookup]
  simp [processCard, hext, hres.1, hres.2]

/-- Concrete check of `price_error_downgraded`: front side extracted, remote
provider timing out. -/
theorem price_error_downgraded_checked :
    processCard (fun _ => Except.error "timeout") 10 7 [] ""
      (ExtractResult.ok ⟨"Skenes", "", "", "", "", "", [], "", "", "", ""⟩)
      ExtractResult.failed =
      Except.ok ((fuseSurviving ""
        (ExtractResult.ok ⟨"Skenes", "", "", "", "", "", [], "", "", "", ""⟩)
        ExtractResult.failed, ⟨none, Method.unresolved⟩), []) :=
  price_error_downgraded (fun _ => Except.error "timeout") 10 7 ""
    (ExtractResult.ok ⟨"Skenes", "", "", "", "", "", [], "", "", "", ""⟩)
    ExtractResult.failed
    (Or.inl ⟨⟨"Skenes", "", "", "", "", "", [], "", "", "", ""⟩, rfl⟩)
    (fun _ => ⟨"timeout", rfl⟩)

/-- C8: when the OCR provider errors on every supplied side the call fails
with CardExtractionFailed and no record is produced (for a full processing
call as well); when one side survives, fusion proceeds with the surviving
side's candidates. -/
theorem extraction_failure_semantics
    (remote : PriceKey → Except String PriceRecord) (ttl now : Nat)
    (cache : Cache) (hint : String) (c : Candidates) :
    processDualExtraction hint ExtractResult.failed ExtractResult.failed =
      Except.error CardError.cardExtractionFailed ∧
    processSingleExtraction hint ExtractResult.failed =
      Except.error CardError.cardExtractionFailed ∧
    processCard remote ttl now cache hint ExtractResult.failed
      ExtractResult.failed = Except.error CardError.cardExtractionFailed ∧
    processDualExtraction hint (ExtractResult.ok c) ExtractResult.failed =
      Except.ok (fuseCards hint c emptyCandidates false) ∧
    processDualExtraction hint ExtractResult.failed (ExtractResult.ok c) =
      Except.ok (fuseCards hint emptyCandidates c false) :=
  ⟨rfl, rfl, rfl, rfl, rfl⟩

/-- The boolean and the propositional forms of "contributed at least one
non-empty field" agree. -/
theorem hasNonEmptyField_iff (c : Candidates) :
    hasNonEmptyField c = true ↔ contributes c := by
  simp [hasNonEmptyField, contributes, List.any_eq_true, or_assoc]

/-- C9: a side appears in `ocr_sources` of the fused record exactly when it
contributed at least one non-empty field. -/
theorem ocr_sources_exact (hint : String) (f b : Candidates) (d : Bool) :
    (Side.front ∈ (fuseCards hint f b d).ocr_sources ↔ contributes f) ∧
    (Side.back ∈ (fuseCards hint f b d).ocr_sources ↔ contributes b) := by
  constructor <;>
  · rw [← hasNonEmptyField_iff]
    cases hf : hasNonEmptyField f <;> cases hb : hasNonEmptyField b <;>
      simp [fuseCards, hf, hb]

end Cards

namespace Uploader

/-- Upload modes of the DualSideUploader component. -/
inductive UploadMode where
  | auto
  | dual
  | single
deriving DecidableEq, Repr

/-- The processing call issued by one `processFiles` invocation: none (early
return on an empty selection), a single-side call on one file, or a dual-side
call on two files. -/
inductive ProcessAction where
  | noAction
  | singleSide (front : String)
  | dualSide (front back : String)
deriving DecidableEq, Repr

/-- Is the action a single-side processing call? -/
def ProcessAction.isSingle : ProcessAction → Bool
  | .singleSide _ => true
  | _ => false

/-- Embedded from the DualSideUploader component (src/unnamed/part_005,
processFiles): an empty selection returns immediately; otherwise
isDualSide = (mode == dual) || (mode == auto && files.length >= 2), and the
dual-side endpoint receives files.slice(0, 2) only when isDualSide holds and
at least two files are selected, else the single-side endpoint receives the
first file. -/
def processFiles (mode : UploadMode) (files : List String) : ProcessAction :=
  match files with
  | [] => ProcessAction.noAction
  | f0 :: rest =>
    if (mode = UploadMode.dual ∨
          (mode = UploadMode.auto ∧ 2 ≤ (f0 :: rest).length)) ∧
        2 ≤ (f0 :: rest).length then
      match rest with
      | f1 :: _ => ProcessAction.dualSide f0 f1
      | [] => ProcessAction.singleSide f0
    else ProcessAction.singleSide f0

end Uploader

namespace Uploader

/-- C10 counterexample: invoking processFiles in dual mode with zero selected
files (which is "fewer than two") performs no processing call at all — in
particular no single-side call on any first file. -/
theorem processFiles_empty_no_single :
    (processFiles UploadMode.dual []).isSingle = false ∧
    processFiles UploadMode.dual [] = ProcessAction.noAction := ⟨rfl, rfl⟩

/-- C10 (amended): with zero selected files processFiles performs no
processing call; with mode dual or auto and exactly one selected file it
degrades to a single-side call on that file; with mode dual or auto and at
least two files it sends exactly the first two files to the dual-side
endpoint; and a dual-side call can only arise from a selection whose first
two files are the ones sent. -/
theorem processFiles_spec (mode : UploadMode) (f0 f1 b : String)
    (files : List String) :
    processFiles mode [] = ProcessAction.noAction ∧
    ((mode = UploadMode.dual ∨ mode = UploadMode.auto) →
      processFiles mode [f0] = ProcessAction.singleSide f0) ∧
    ((mode = UploadMode.dual ∨ mode = UploadMode.auto) → ∀ g1 grest,
      processFiles mode (f0 :: g1 :: grest) = ProcessAction.dualSide f0 g1) ∧
    (processFiles mode files = ProcessAction.dualSide f1 b →
      ∃ r, files = f1 :: b :: r) := by
  refine ⟨rfl, ?_, ?_, ?_⟩
  · rintro (h | h) <;> subst h <;> norm_num [processFiles]
  · rintro (h | h) g1 grest <;> subst h <;> norm_num [processFiles]
  · intro h
    rcases files with _ | ⟨g0, _ | ⟨g1, gr⟩⟩
    · simp [processFiles] at h
    · norm_num [processFiles] at h
      simp at h
    · simp only [processFiles] at h
      by_cases hc : (mode = UploadMode.dual ∨
          (mode = UploadMode.auto ∧ 2 ≤ (g0 :: g1 :: gr).length)) ∧
          2 ≤ (g0 :: g1 :: gr).length
      · rw [if_pos hc] at h
        injection h with h1 h2
        subst h1
        subst h2
        exact ⟨gr, rfl⟩
      · rw [if_neg hc] at h
        simp at h

/-- Concrete check of `processFiles_spec`: dual mode with one file degrades
to single-side; auto mode with three files sends the first two dual-side. -/
theorem processFiles_spec_checked :
    processFiles UploadMode.dual ["f.jpg"] = ProcessAction.singleSide "f.jpg" ∧
    processFiles UploadMode.auto ["f.jpg", "b.jpg", "c.jpg"] =
      ProcessAction.dualSide "f.jpg" "b.jpg" := by
  constructor
  · exact (processFiles_spec UploadMode.dual "f.jpg" "" "" []).2.1 (Or.inl rfl)
  · exact (processFiles_spec UploadMode.auto "f.jpg" "" "" []).2.2.1
      (Or.inr rfl) "b.jpg" ["c.jpg"]

end Uploader
